import Mathlib

/-!
Verification development for check_and_download_cover.py.

The script resolves missing album-cover artwork: for each catalog record it
tries five providers in order (Spotify, Deezer, Last.fm, Discogs,
MusicBrainz/Cover Art Archive), verifies Spotify and Deezer candidates with a
fuzzy-matching policy, downloads and resizes the winning image, and updates
the record's coverSrc field.  The outside world (HTTP responses, the
filesystem, the imaging library) is passed in explicitly, so every function
here is a pure translation of the corresponding Python function.
-/

/-- Common title variants to improve search results (source line 26). -/
def TITLE_VARIANTS : List String :=
  ["Deluxe", "Remastered", "Anniversary", "Special Edition", "Expanded Edition"]

/-- Accepted album-type classifications (source line 27). -/
def ALBUM_TYPES : List String := ["album", "ep", "compilation", "live"]

/-- Characters in the Latin-1 supplement range 128..255 are dropped by the
similarity library's ASCII folding (model of fuzzywuzzy utils.asciionly,
which the source reaches through fuzz.token_sort_ratio). -/
def asciionly (s : String) : String :=
  String.mk (s.toList.filter (fun c => c.toNat < 128 || 255 < c.toNat))

/-- Word characters kept by the similarity preprocessing (model of the word
regex class for the code points exercised here). -/
def isWordChar (c : Char) : Bool := c.isAlphanum || c == '_'

/-- Strip of leading and trailing whitespace (model of Python str.strip). -/
def stripChars (l : List Char) : List Char :=
  ((l.dropWhile Char.isWhitespace).reverse.dropWhile Char.isWhitespace).reverse

/-- Model of fuzzywuzzy utils.full_process with ASCII forcing: drop Latin-1
non-ASCII characters, replace non-word characters by spaces, lowercase,
strip. -/
def full_process (s : String) : String :=
  String.mk (stripChars ((asciionly s).toList.map (fun c => if isWordChar c then c.toLower else ' ')))

/-- Splitter on whitespace, accumulating the current token reversed. -/
def splitWSAux : List Char → List Char → List (List Char)
  | [], acc => if acc.isEmpty then [] else [acc.reverse]
  | c :: cs, acc =>
    if c.isWhitespace then
      if acc.isEmpty then splitWSAux cs [] else acc.reverse :: splitWSAux cs []
    else splitWSAux cs (c :: acc)

/-- Whitespace split discarding empty pieces (model of Python str.split()). -/
def pySplit (s : String) : List String :=
  (splitWSAux s.toList []).map String.mk

/-- Lexicographic comparison of code-point lists (model of Python string
ordering used by sorted). -/
def lexLe : List Char → List Char → Bool
  | [], _ => true
  | _ :: _, [] => false
  | a :: as, b :: bs => if a = b then lexLe as bs else decide (a < b)

/-- Insertion into an ascending list of strings. -/
def insertSorted (x : String) : List String → List String
  | [] => [x]
  | y :: ys => if lexLe x.toList y.toList then x :: y :: ys else y :: insertSorted x ys

/-- Ascending sort of a list of strings (model of Python sorted). -/
def sortStrings (l : List String) : List String := l.foldr insertSorted []

/-- Length of a longest common subsequence, with explicit fuel so the
definition is structural and evaluates by kernel reduction; the fuel is
instantiated with the total length, which one step never exhausts early. -/
def lcsFuel : Nat → List Char → List Char → Nat
  | 0, _, _ => 0
  | Nat.succ _, [], _ => 0
  | Nat.succ _, _ :: _, [] => 0
  | Nat.succ n, a :: as, b :: bs =>
    if a = b then 1 + lcsFuel n as bs
    else max (lcsFuel n (a :: as) bs) (lcsFuel n as (b :: bs))

/-- Length of a longest common subsequence of two character lists. -/
def lcs (as bs : List Char) : Nat := lcsFuel (as.length + bs.length) as bs

/-- Rounded similarity percentage 2M/T of two processed strings, 0 when
either is empty (model of the scoring backend used by fuzzywuzzy; ties at
half round up, which no score computed here hits). -/
def fuzzSimScore (a b : String) : Nat :=
  if a.length = 0 || b.length = 0 then 0
  else (400 * lcs a.toList b.toList + (a.length + b.length)) / (2 * (a.length + b.length))

/-- Join of a list of strings with single spaces (model of the single-space
join used by the token sorter). -/
def joinSpace : List String → List Char
  | [] => []
  | [t] => t.toList
  | t :: ts => t.toList ++ ' ' :: joinSpace ts

/-- Processed and token-sorted form of a string. -/
def processAndSort (s : String) : String :=
  String.mk (joinSpace (sortStrings (pySplit (full_process s))))

/-- Model of fuzzywuzzy fuzz.token_sort_ratio as called by the source:
full-process both strings with ASCII forcing, sort their whitespace tokens,
rejoin with single spaces, and score the results. -/
def tokenSortSim (s1 s2 : String) : Nat :=
  fuzzSimScore (processAndSort s1) (processAndSort s2)

/-- Fuzzy match between two strings: the token-sort similarity reaches the
threshold (source fuzzy_match, lines 64-76; the similarity function is a
parameter so that statements range over any scoring backend). -/
def fuzzy_match (tsr : String → String → Nat) (target candidate : String) (threshold : Nat) : Bool :=
  decide (threshold ≤ tsr target candidate)

/-- Canonical decomposition of one character (model of unicodedata NFD for
the code points exercised here: a composed letter splits into its base
letter followed by combining acute, code point 769). -/
def nfdChar (c : Char) : List Char :=
  if c = 'é' then ['e', Char.ofNat 769] else [c]

/-- Combining-mark test (model of unicodedata category Mn for the code
points exercised here). -/
def isCombiningMark (c : Char) : Bool := c.toNat == 769

/-- Normalize the artist name by NFD-decomposing and dropping combining
marks (source normalize_artist_name, lines 78-94). -/
def normalize_artist_name (artist : String) : String :=
  String.mk (((artist.toList.map nfdChar).flatten).filter (fun c => !(isCombiningMark c)))

/-- Leading component of a date string before the first dash, the empty
string when the date field is absent (source release_date.split('-')[0]). -/
def extract_year (s : String) : String :=
  String.mk (s.toList.takeWhile (fun c => !(c == '-')))

/-- Match verification exactly as written inline in fetch_cover_spotify
(source lines 158-161) and fetch_cover_deezer (source lines 197-200):
artist similarity at least 90, album similarity at least 85, album type
present and in ALBUM_TYPES, and exact release-year equality when a year was
requested. -/
def verify (tsr : String → String → Nat) (artist album : String) (release_year : Option String)
    (cArtist cName : String) (cType : Option String) (cDate : String) : Bool :=
  fuzzy_match tsr artist cArtist 90 &&
  fuzzy_match tsr album cName 85 &&
  (match cType with
   | some t => ALBUM_TYPES.contains t
   | none => false) &&
  (match release_year with
   | none => true
   | some y => extract_year cDate == y)

/-- Title variants tried by Spotify and Deezer: the base title first, then
the title followed by each suffix of TITLE_VARIANTS (source lines 143 and
181). -/
def title_variants (album : String) : List String :=
  album :: TITLE_VARIANTS.map (fun s => album ++ " " ++ s)

/-- One album item of a Spotify search response (fields read by the source
at lines 151-163). -/
structure SpotifyAlbum where
  name : String
  artistName : String
  album_type : Option String
  release_date : String
  images : List String
deriving DecidableEq

/-- Scan of one Spotify response's items in order, returning the first image
of the first item passing verification (source lines 151-163; the source
indexes images[0], modelled total with a default). -/
def spotify_scan (tsr : String → String → Nat) (artist album : String) (ry : Option String) :
    List SpotifyAlbum → Option String
  | [] => none
  | it :: rest =>
    if verify tsr artist album ry it.artistName it.name it.album_type it.release_date
    then some (it.images.headD "")
    else spotify_scan tsr artist album ry rest

/-- Iteration of the Spotify query over title variants: a none response
models a non-200 status, and a response whose scan yields nothing moves to
the next variant (source lines 143-166). -/
def spotify_loop (tsr : String → String → Nat) (respond : String → Option (List SpotifyAlbum))
    (artist album : String) (ry : Option String) : List String → Option String
  | [] => none
  | v :: vs =>
    match respond v with
    | none => spotify_loop tsr respond artist album ry vs
    | some items =>
      match spotify_scan tsr artist album ry items with
      | some url => some url
      | none => spotify_loop tsr respond artist album ry vs

/-- Fetch the cover URL from Spotify (source lines 127-167), with the HTTP
world given as a response per queried title variant. -/
def fetch_cover_spotify (tsr : String → String → Nat) (respond : String → Option (List SpotifyAlbum))
    (artist album : String) (ry : Option String) : Option String :=
  spotify_loop tsr respond artist album ry (title_variants album)

/-- One album item of a Deezer search response (fields read by the source at
lines 190-202). -/
structure DeezerAlbum where
  title : String
  artistName : String
  record_type : Option String
  release_date : String
  cover_big : String
deriving DecidableEq

/-- Handling of one Deezer response: only the first returned item is
examined; a failed check moves to the next variant (source lines 186-204). -/
def deezer_step (tsr : String → String → Nat) (artist album : String) (ry : Option String)
    (reply : Option (List DeezerAlbum)) : Option String :=
  match reply with
  | none => none
  | some [] => none
  | some (a :: _) =>
    if verify tsr artist album ry a.artistName a.title a.record_type a.release_date
    then some a.cover_big
    else none

/-- Iteration of the Deezer query over title variants (source lines
181-206). -/
def deezer_loop (tsr : String → String → Nat) (respond : String → Option (List DeezerAlbum))
    (artist album : String) (ry : Option String) : List String → Option String
  | [] => none
  | v :: vs =>
    match deezer_step tsr artist album ry (respond v) with
    | some url => some url
    | none => deezer_loop tsr respond artist album ry vs

/-- Fetch the cover URL from Deezer (source lines 169-206). -/
def fetch_cover_deezer (tsr : String → String → Nat) (respond : String → Option (List DeezerAlbum))
    (artist album : String) (ry : Option String) : Option String :=
  deezer_loop tsr respond artist album ry (title_variants album)

/-- One image entry of a Last.fm album payload (source img['size'] and
img['#text']). -/
structure LastfmImage where
  size : String
  text : String
deriving DecidableEq

/-- Album payload of a Last.fm response.  The artist and title fields are
present in the API payload; the source never reads them, which is exactly
what the unverified-result statements below are about. -/
structure LastfmAlbum where
  artistName : String
  name : String
  albumType : Option String
  releaseDate : String
  images : List LastfmImage
deriving DecidableEq

/-- Fetch the cover URL from Last.fm (source lines 208-239): exactly one
query with the base title; outer none models a non-200 status, inner none a
payload without album or image keys; the first extralarge image is returned
with no verification of artist, title, type or year. -/
def fetch_cover_lastfm (key : Option String)
    (respond : Option String → String → String → Option (Option LastfmAlbum))
    (artist album : String) : Option String :=
  match respond key artist album with
  | none => none
  | some none => none
  | some (some alb) =>
    match alb.images.find? (fun img => img.size == "extralarge") with
    | some img => some img.text
    | none => none

/-- One release of a Discogs search result (the source reads
release.images[0]['uri']). -/
structure DiscogsRelease where
  images : List String
deriving DecidableEq

/-- Fetch the cover URL from Discogs (source lines 241-265): one query with
the base title; every exception of the client is caught and yields none, so
a raising search, an empty result list, or a release without images all
produce none, and no verification is performed on a found image. -/
def fetch_cover_discogs (token : Option String)
    (search : Option String → String → String → Except String (List DiscogsRelease))
    (artist album : String) : Option String :=
  match search token album artist with
  | Except.error _ => none
  | Except.ok [] => none
  | Except.ok (r :: _) => r.images.head?

/-- Fetch the cover URL from MusicBrainz and the Cover Art Archive (source
lines 267-305): one query with the base title; the first release id builds
the archive URL, which is returned unless a HEAD probe answers 404.  No
verification is performed. -/
def fetch_cover_musicbrainz (respond : String → String → Option (List String))
    (headStatus : String → Nat) (artist album : String) : Option String :=
  match respond artist album with
  | none => none
  | some [] => none
  | some (release_id :: _) =>
    if headStatus ("https://coverartarchive.org/release/" ++ release_id ++ "/front-500") == 404
    then none
    else some ("https://coverartarchive.org/release/" ++ release_id ++ "/front-500")

/-- Spotify client-credentials authentication (source lines 38-62): the
token endpoint's status and body token are the world; a non-200 status
yields none. -/
def authenticate_spotify (respond : Nat × Option String) : Option String :=
  if respond.fst == 200 then respond.snd else none

/-- Download and normalize one image (source lines 307-344).  The HTTP
world is an error (a transport exception, which the source catches and turns
into False) or a status code; the imaging pipeline (decode, resize, convert,
makedirs, save) is an Except whose error the source does NOT catch, so it
propagates out of the function. -/
def download_and_resize_image (resp : Except String Nat) (imaging : Except String Unit) :
    Except String Bool :=
  match resp with
  | Except.error _ => Except.ok false
  | Except.ok code =>
    if code == 200 then
      match imaging with
      | Except.error e => Except.error e
      | Except.ok _ => Except.ok true
    else Except.ok false

/-- One catalog record (source keys artist, album, year, coverSrc). -/
structure AlbumRecord where
  artist : String
  album : String
  year : Option String
  coverSrc : Option String
deriving DecidableEq

/-- Record with its coverSrc field replaced. -/
def setCover (r : AlbumRecord) (v : Option String) : AlbumRecord :=
  ⟨r.artist, r.album, r.year, v⟩

/-- Providers in the chain, in source order. -/
inductive ProviderTag where
  | spotify
  | deezer
  | lastfm
  | discogs
  | musicbrainz
deriving DecidableEq

/-- Truthiness of the coverSrc field (Python: a missing key or an empty
string is falsy). -/
def truthy : Option String → Bool
  | none => false
  | some s => !(s == "")

/-- Test of the first skip condition of the record loop: coverSrc is truthy
and the file it references exists (source line 369). -/
def existingCover (fs : String → Bool) : Option String → Bool
  | none => false
  | some s => !(s == "") && fs s

/-- Results of the five provider calls for one record, plus the Spotify
token; each Option String is the value the corresponding fetch function
returned (none for both a miss and a provider error, as in the source). -/
structure ChainEnv where
  spotify_token : Option String
  pSpotify : Option String
  pDeezer : Option String
  pLastfm : Option String
  pDiscogs : Option String
  pMusicbrainz : Option String

/-- Provider chain of process_json (source lines 376-408): Spotify is
consulted only when a token exists, each later provider only while no cover
URL has been found; the returned list records which providers were queried,
in order. -/
def chain (env : ChainEnv) : Option String × List ProviderTag :=
  match env.spotify_token with
  | some _ =>
    match env.pSpotify with
    | some u => (some u, [ProviderTag.spotify])
    | none =>
      match env.pDeezer with
      | some u => (some u, [ProviderTag.spotify, ProviderTag.deezer])
      | none =>
        match env.pLastfm with
        | some u => (some u, [ProviderTag.spotify, ProviderTag.deezer, ProviderTag.lastfm])
        | none =>
          match env.pDiscogs with
          | some u =>
            (some u, [ProviderTag.spotify, ProviderTag.deezer, ProviderTag.lastfm,
              ProviderTag.discogs])
          | none =>
            ((env.pMusicbrainz).map id,
              [ProviderTag.spotify, ProviderTag.deezer, ProviderTag.lastfm,
                ProviderTag.discogs, ProviderTag.musicbrainz])
  | none =>
    match env.pDeezer with
    | some u => (some u, [ProviderTag.deezer])
    | none =>
      match env.pLastfm with
      | some u => (some u, [ProviderTag.deezer, ProviderTag.lastfm])
      | none =>
        match env.pDiscogs with
        | some u => (some u, [ProviderTag.deezer, ProviderTag.lastfm, ProviderTag.discogs])
        | none =>
          ((env.pMusicbrainz).map id,
            [ProviderTag.deezer, ProviderTag.lastfm, ProviderTag.discogs,
              ProviderTag.musicbrainz])

/-- Observables of processing one record: the mutated record, the providers
queried, and the download call made (URL and output path), if any. -/
structure StepResult where
  record : AlbumRecord
  queried : List ProviderTag
  downloadCall : Option (String × String)
deriving DecidableEq

/-- Deterministic output path bandcover/genre/slug(artist_album).jpg of one
record (source lines 366-367; the slugify library is a parameter). -/
def output_path_of (slug : String → String) (genre : String) (rec : AlbumRecord) : String :=
  "bandcover/" ++ genre ++ "/" ++ slug (rec.artist ++ "_" ++ rec.album) ++ ".jpg"

/-- Body of the record loop of process_json (source lines 356-420): add an
empty coverSrc when missing; skip when the referenced cover file exists;
reuse the deterministic output file when present; otherwise run the provider
chain, fall back to the default placeholder on exhaustion, and download a
found URL, where a download returning false leaves the record and a raising
download propagates the error (aborting the run, as in the source). -/
def process_record (fs : String → Bool) (slug : String → String) (genre : String)
    (env : ChainEnv) (download : String → String → Except String Bool)
    (rec : AlbumRecord) : Except String StepResult :=
  let cover_src := rec.coverSrc
  let rec1 := if truthy cover_src then rec else setCover rec (some "")
  let output_path := output_path_of slug genre rec
  if existingCover fs cover_src then
    Except.ok ⟨rec1, [], none⟩
  else if fs output_path then
    Except.ok ⟨setCover rec1 (some ("/" ++ output_path)), [], none⟩
  else
    match chain env with
    | (none, queried) =>
      Except.ok ⟨setCover rec1 (some "/default-cover.jpg"), queried, none⟩
    | (some url, queried) =>
      match download url output_path with
      | Except.error e => Except.error e
      | Except.ok true =>
        Except.ok ⟨setCover rec1 (some ("/" ++ output_path)), queried, some (url, output_path)⟩
      | Except.ok false =>
        Except.ok ⟨rec1, queried, some (url, output_path)⟩

/-- Variant-iterating Last.fm lookup, modelled from the spec sentence that
every provider attempts the base title and then each suffixed variant,
stopping at the first hit; used only to compare with the source's
fetch_cover_lastfm, which queries once. -/
def fetch_cover_lastfm_specVariants (key : Option String)
    (respond : Option String → String → String → Option (Option LastfmAlbum))
    (artist album : String) : Option String :=
  (title_variants album).findSome? (fun v => fetch_cover_lastfm key respond artist v)

theorem spotify_scan_mem (tsr : String → String → Nat) (artist album : String)
    (ry : Option String) (items : List SpotifyAlbum) (url : String)
    (h : spotify_scan tsr artist album ry items = some url) :
    ∃ it ∈ items,
      verify tsr artist album ry it.artistName it.name it.album_type it.release_date = true ∧
      url = it.images.headD "" := by
  induction items with
  | nil => simp [spotify_scan] at h
  | cons it rest ih =>
    rw [spotify_scan] at h
    split at h
    · next hv => exact ⟨it, by simp, hv, (Option.some.inj h).symm⟩
    · next hv =>
      obtain ⟨x, hx, hxv, hxu⟩ := ih h
      exact ⟨x, by simp [hx], hxv, hxu⟩

theorem spotify_loop_findSome (tsr : String → String → Nat)
    (respond : String → Option (List SpotifyAlbum)) (artist album : String)
    (ry : Option String) (vs : List String) :
    spotify_loop tsr respond artist album ry vs =
      vs.findSome? (fun v => (respond v).bind (spotify_scan tsr artist album ry)) := by
  induction vs with
  | nil => rfl
  | cons v rest ih =>
    rw [spotify_loop, List.findSome?]
    cases hr : respond v with
    | none => simpa [hr] using ih
    | some items =>
      cases hs : spotify_scan tsr artist album ry items with
      | none => simpa [hr, hs] using ih
      | some url => simp [hr, hs]

theorem deezer_loop_findSome (tsr : String → String → Nat)
    (respond : String → Option (List DeezerAlbum)) (artist album : String)
    (ry : Option String) (vs : List String) :
    deezer_loop tsr respond artist album ry vs =
      vs.findSome? (fun v => deezer_step tsr artist album ry (respond v)) := by
  induction vs with
  | nil => rfl
  | cons v rest ih =>
    rw [deezer_loop, List.findSome?]
    cases hs : deezer_step tsr artist album ry (respond v) with
    | none => simpa [hs] using ih
    | some url => simp [hs]

theorem spotify_loop_mem (tsr : String → String → Nat)
    (respond : String → Option (List SpotifyAlbum)) (artist album : String)
    (ry : Option String) (vs : List String) (url : String)
    (h : spotify_loop tsr respond artist album ry vs = some url) :
    ∃ v ∈ vs, ∃ items, respond v = some items ∧
      spotify_scan tsr artist album ry items = some url := by
  induction vs with
  | nil => simp [spotify_loop] at h
  | cons v rest ih =>
    rw [spotify_loop] at h
    split at h
    · obtain ⟨w, hw, hitems⟩ := ih h
      exact ⟨w, by simp [hw], hitems⟩
    · next items heq =>
      split at h
      · next u hs => exact ⟨v, by simp, items, heq, by rw [hs, h]⟩
      · obtain ⟨w, hw, hitems⟩ := ih h
        exact ⟨w, by simp [hw], hitems⟩

theorem deezer_loop_mem (tsr : String → String → Nat)
    (respond : String → Option (List DeezerAlbum)) (artist album : String)
    (ry : Option String) (vs : List String) (url : String)
    (h : deezer_loop tsr respond artist album ry vs = some url) :
    ∃ v ∈ vs, deezer_step tsr artist album ry (respond v) = some url := by
  induction vs with
  | nil => simp [deezer_loop] at h
  | cons v rest ih =>
    rw [deezer_loop] at h
    split at h
    · next u hs => exact ⟨v, by simp, by rw [hs, h]⟩
    · obtain ⟨w, hw, hstep⟩ := ih h
      exact ⟨w, by simp [hw], hstep⟩

theorem deezer_step_mem (tsr : String → String → Nat) (artist album : String)
    (ry : Option String) (reply : Option (List DeezerAlbum)) (url : String)
    (h : deezer_step tsr artist album ry reply = some url) :
    ∃ a as, reply = some (a :: as) ∧
      verify tsr artist album ry a.artistName a.title a.record_type a.release_date = true ∧
      url = a.cover_big := by
  match reply with
  | none => simp [deezer_step] at h
  | some [] => simp [deezer_step] at h
  | some (a :: as) =>
    rw [deezer_step] at h
    split at h
    · next hv => exact ⟨a, as, rfl, hv, (Option.some.inj h).symm⟩
    · next hv => simp at h

/-- C1 (counterexample): three providers yield a Found cover URL with no
verification.  For requested Pink Floyd / The Wall / 1979, Last.fm returns
the image of a candidate that fails every verification check (dissimilar
artist, dissimilar title, type single, different year), Discogs returns the
first release's first image, and MusicBrainz the first release id's archive
URL — so not every provider's Found result is gated by match verification. -/
theorem C1_unverified_providers_found :
    fetch_cover_lastfm (some "k")
      (fun _ _ _ => some (some ⟨"QQQQ", "XXXX", some "single", "2001-01-01",
        [⟨"extralarge", "http://img"⟩]⟩))
      "Pink Floyd" "The Wall" = some "http://img" ∧
    verify tokenSortSim "Pink Floyd" "The Wall" (some "1979")
      "QQQQ" "XXXX" (some "single") "2001-01-01" = false ∧
    fetch_cover_discogs (some "tok") (fun _ _ _ => Except.ok [⟨["http://d"]⟩])
      "Pink Floyd" "The Wall" = some "http://d" ∧
    fetch_cover_musicbrainz (fun _ _ => some ["rid1"]) (fun _ => 200)
      "Pink Floyd" "The Wall" =
      some "https://coverartarchive.org/release/rid1/front-500" := by
  refine ⟨rfl, by decide, rfl, rfl⟩

/-- C1 (amended): only the Spotify and Deezer providers gate a Found result
by match verification — whenever one of them resolves a cover URL, some
candidate of a queried response passed all the checks (artist similarity at
least 90, album similarity at least 85, accepted album type, year check) and
the URL is that candidate's image.  Last.fm returns the first extralarge
image of any album payload whatever its artist, title, type and date fields
hold; Discogs returns the first image of the first release, which carries no
checkable metadata at all; MusicBrainz returns the archive URL of the first
release id whenever the HEAD probe does not answer 404 — in all three cases
no verification is consulted. -/
theorem C1_spotify_deezer_gated :
    (∀ (tsr : String → String → Nat) (respond : String → Option (List SpotifyAlbum))
        (artist album : String) (ry : Option String) (url : String),
      fetch_cover_spotify tsr respond artist album ry = some url →
      ∃ v ∈ title_variants album, ∃ items, respond v = some items ∧
        ∃ it ∈ items,
          verify tsr artist album ry it.artistName it.name it.album_type it.release_date = true ∧
          url = it.images.headD "") ∧
    (∀ (tsr : String → String → Nat) (respond : String → Option (List DeezerAlbum))
        (artist album : String) (ry : Option String) (url : String),
      fetch_cover_deezer tsr respond artist album ry = some url →
      ∃ v ∈ title_variants album, ∃ a as, respond v = some (a :: as) ∧
        verify tsr artist album ry a.artistName a.title a.record_type a.release_date = true ∧
        url = a.cover_big) ∧
    (∀ (key : Option String)
        (respond : Option String → String → String → Option (Option LastfmAlbum))
        (artist album : String) (alb : LastfmAlbum) (img : LastfmImage),
      respond key artist album = some (some alb) →
      alb.images.find? (fun i => i.size == "extralarge") = some img →
      fetch_cover_lastfm key respond artist album = some img.text) ∧
    (∀ (token : Option String)
        (search : Option String → String → String → Except String (List DiscogsRelease))
        (artist album : String) (r : DiscogsRelease) (rs : List DiscogsRelease)
        (u : String) (us : List String),
      search token album artist = Except.ok (r :: rs) →
      r.images = u :: us →
      fetch_cover_discogs token search artist album = some u) ∧
    (∀ (respond : String → String → Option (List String)) (headStatus : String → Nat)
        (artist album rid : String) (rest : List String),
      respond artist album = some (rid :: rest) →
      headStatus ("https://coverartarchive.org/release/" ++ rid ++ "/front-500") ≠ 404 →
      fetch_cover_musicbrainz respond headStatus artist album =
        some ("https://coverartarchive.org/release/" ++ rid ++ "/front-500")) := by
  refine ⟨?_, ?_, ?_, ?_, ?_⟩
  · intro tsr respond artist album ry url h
    obtain ⟨v, hv, items, hitems, hscan⟩ :=
      spotify_loop_mem tsr respond artist album ry (title_variants album) url h
    obtain ⟨it, hit, hver, hurl⟩ := spotify_scan_mem tsr artist album ry items url hscan
    exact ⟨v, hv, items, hitems, it, hit, hver, hurl⟩
  · intro tsr respond artist album ry url h
    obtain ⟨v, hv, hstep⟩ :=
      deezer_loop_mem tsr respond artist album ry (title_variants album) url h
    obtain ⟨a, as, hreply, hver, hurl⟩ := deezer_step_mem tsr artist album ry (respond v) url hstep
    exact ⟨v, hv, a, as, hreply, hver, hurl⟩
  · intro key respond artist album alb img h1 h2
    simp [fetch_cover_lastfm, h1, h2]
  · intro token search artist album r rs u us h1 h2
    simp [fetch_cover_discogs, h1, h2]
  · intro respond headStatus artist album rid rest h1 h2
    have hb : (headStatus ("https://coverartarchive.org/release/" ++ rid ++ "/front-500")
        == 404) = false := beq_eq_false_iff_ne.mpr h2
    simp [fetch_cover_musicbrainz, h1, hb]

/-- C1 (witness): the Spotify gating statement applied to a concrete world
with one perfect candidate, and the Last.fm unverified-return statement at a
concrete payload. -/
theorem C1_spotify_deezer_gated_witness :
    (∃ v ∈ title_variants "bb",
      ∃ items, ((fun _ => some [⟨"bb", "aa", some "album", "", ["u"]⟩]) :
          String → Option (List SpotifyAlbum)) v = some items ∧
        ∃ it ∈ items,
          verify tokenSortSim "aa" "bb" none it.artistName it.name it.album_type it.release_date
            = true ∧
          "u" = it.images.headD "") ∧
    fetch_cover_lastfm (some "k")
      (fun _ _ _ => some (some ⟨"ZZ", "YY", some "single", "1999",
        [⟨"extralarge", "http://l"⟩]⟩))
      "Pink Floyd" "The Wall" = some "http://l" :=
  ⟨C1_spotify_deezer_gated.1 tokenSortSim
    (fun _ => some [⟨"bb", "aa", some "album", "", ["u"]⟩]) "aa" "bb" none "u" (by decide),
   C1_spotify_deezer_gated.2.2.1 (some "k")
    (fun _ _ _ => some (some ⟨"ZZ", "YY", some "single", "1999",
      [⟨"extralarge", "http://l"⟩]⟩))
    "Pink Floyd" "The Wall" ⟨"ZZ", "YY", some "single", "1999", [⟨"extralarge", "http://l"⟩]⟩
    ⟨"extralarge", "http://l"⟩ rfl rfl⟩

/-- C2 (code_bug evaluation): normalize_artist_name is never applied before
the similarity comparison; with requested artist composed of accented e and
candidate its diacritic-free form, the raw comparison the code performs
scores 0 (the similarity library drops Latin-1 letters) and verification
rejects a perfect candidate, while the comparison on normalized names that
the claim describes accepts it. -/
theorem C2_normalization_not_applied :
    fuzzy_match tokenSortSim "ééééé" "eeeee" 90 = false ∧
    normalize_artist_name "ééééé" = "eeeee" ∧
    fuzzy_match tokenSortSim (normalize_artist_name "ééééé") (normalize_artist_name "eeeee") 90
      = true ∧
    verify tokenSortSim "ééééé" "The Wall" none "eeeee" "The Wall" (some "album") "" = false ∧
    fetch_cover_spotify tokenSortSim
      (fun _ => some [⟨"The Wall", "eeeee", some "album", "", ["u"]⟩])
      "ééééé" "The Wall" none = none := by
  refine ⟨by decide, by decide, by decide, by decide, by decide⟩

/-- C3 (counterexample): the Last.fm provider queries only the base album
title.  Against a world that has a cover only under the title "The Wall
Deluxe", the source's fetch_cover_lastfm finds nothing, while the
variant-iterating lookup the claim describes finds it. -/
theorem C3_lastfm_no_variants :
    fetch_cover_lastfm (some "k")
      (fun _ _ q => if q == "The Wall Deluxe"
        then some (some ⟨"Pink Floyd", "The Wall Deluxe", some "album", "1979-11-30",
          [⟨"extralarge", "http://img"⟩]⟩)
        else none)
      "Pink Floyd" "The Wall" = none ∧
    fetch_cover_lastfm_specVariants (some "k")
      (fun _ _ q => if q == "The Wall Deluxe"
        then some (some ⟨"Pink Floyd", "The Wall Deluxe", some "album", "1979-11-30",
          [⟨"extralarge", "http://img"⟩]⟩)
        else none)
      "Pink Floyd" "The Wall" = some "http://img" := by
  constructor
  · rfl
  · rfl

/-- C3 (amended): only Spotify and Deezer attempt the base album title and
then the title concatenated with each suffix of the fixed variant set,
stopping at the first verified hit across the variants — their results are
the first hit of the variant list in order; Last.fm, Discogs and MusicBrainz
issue exactly one query with the base title, and their results depend only
on that query's response. -/
theorem C3_variants_only_spotify_deezer :
    (∀ (tsr : String → String → Nat) (respond : String → Option (List SpotifyAlbum))
        (artist album : String) (ry : Option String),
      fetch_cover_spotify tsr respond artist album ry =
        (album :: TITLE_VARIANTS.map (fun s => album ++ " " ++ s)).findSome?
          (fun v => (respond v).bind (spotify_scan tsr artist album ry))) ∧
    (∀ (tsr : String → String → Nat) (respond : String → Option (List DeezerAlbum))
        (artist album : String) (ry : Option String),
      fetch_cover_deezer tsr respond artist album ry =
        (album :: TITLE_VARIANTS.map (fun s => album ++ " " ++ s)).findSome?
          (fun v => deezer_step tsr artist album ry (respond v))) ∧
    (∀ (key : Option String)
        (respond respond' : Option String → String → String → Option (Option LastfmAlbum))
        (artist album : String),
      respond key artist album = respond' key artist album →
      fetch_cover_lastfm key respond artist album =
        fetch_cover_lastfm key respond' artist album) ∧
    (∀ (token : Option String)
        (search search' : Option String → String → String → Except String (List DiscogsRelease))
        (artist album : String),
      search token album artist = search' token album artist →
      fetch_cover_discogs token search artist album =
        fetch_cover_discogs token search' artist album) ∧
    (∀ (respond respond' : String → String → Option (List String))
        (headStatus : String → Nat) (artist album : String),
      respond artist album = respond' artist album →
      fetch_cover_musicbrainz respond headStatus artist album =
        fetch_cover_musicbrainz respond' headStatus artist album) := by
  refine ⟨?_, ?_, ?_, ?_, ?_⟩
  · intro tsr respond artist album ry
    exact spotify_loop_findSome tsr respond artist album ry (title_variants album)
  · intro tsr respond artist album ry
    exact deezer_loop_findSome tsr respond artist album ry (title_variants album)
  · intro key respond respond' artist album h
    unfold fetch_cover_lastfm
    rw [h]
  · intro token search search' artist album h
    unfold fetch_cover_discogs
    rw [h]
  · intro respond respond' headStatus artist album h
    unfold fetch_cover_musicbrainz
    rw [h]

/-- C3 (witness): the Last.fm base-query dependence applied to two concrete
worlds that agree on the base query but differ on every variant query. -/
theorem C3_variants_only_spotify_deezer_witness :
    fetch_cover_lastfm (some "k")
      (fun _ _ q => if q == "The Wall" then none
        else some (some ⟨"Pink Floyd", "The Wall", some "album", "1979",
          [⟨"extralarge", "http://img"⟩]⟩))
      "Pink Floyd" "The Wall" =
    fetch_cover_lastfm (some "k") (fun _ _ _ => none) "Pink Floyd" "The Wall" :=
  C3_variants_only_spotify_deezer.2.2.1 (some "k")
    (fun _ _ q => if q == "The Wall" then none
      else some (some ⟨"Pink Floyd", "The Wall", some "album", "1979",
        [⟨"extralarge", "http://img"⟩]⟩))
    (fun _ _ _ => none) "Pink Floyd" "The Wall" (by decide)

/-- First some of a list of optional results, in order. -/
def firstFound : List (Option String) → Option String
  | [] => none
  | o :: os =>
    match o with
    | some u => some u
    | none => firstFound os

/-- C4 (confirmed): with a Spotify token present, the chain consults the
providers in the strict order Spotify, Deezer, Last.fm, Discogs,
MusicBrainz; its cover URL is the first Found among them in that order, and
the queried list stops at the first provider that returned a result, so a
Found short-circuits all remaining providers while a provider without a
result moves the chain to the next one. -/
theorem C4_chain_priority_order (env : ChainEnv) (t : String)
    (h : env.spotify_token = some t) :
    (chain env).1 =
      firstFound [env.pSpotify, env.pDeezer, env.pLastfm, env.pDiscogs, env.pMusicbrainz] ∧
    (chain env).2 =
      ProviderTag.spotify :: (if env.pSpotify.isSome then [] else
        ProviderTag.deezer :: (if env.pDeezer.isSome then [] else
          ProviderTag.lastfm :: (if env.pLastfm.isSome then [] else
            ProviderTag.discogs :: (if env.pDiscogs.isSome then [] else
              [ProviderTag.musicbrainz])))) := by
  obtain ⟨tok, pA, pB, pC, pD, pE⟩ := env
  simp only at h
  subst h
  cases pA <;> cases pB <;> cases pC <;> cases pD <;> cases pE <;>
    simp [chain, firstFound]

/-- C4 (witness): the priority-order statement at a concrete environment in
which Deezer is the first provider with a result. -/
theorem C4_chain_priority_order_witness :
    (chain ⟨some "t", none, some "http://d", none, none, some "http://m"⟩).1 =
      firstFound [none, some "http://d", none, none, some "http://m"] ∧
    (chain ⟨some "t", none, some "http://d", none, none, some "http://m"⟩).2 =
      ProviderTag.spotify :: (if (none : Option String).isSome then [] else
        ProviderTag.deezer :: (if (some "http://d" : Option String).isSome then [] else
          ProviderTag.lastfm :: (if (none : Option String).isSome then [] else
            ProviderTag.discogs :: (if (none : Option String).isSome then [] else
              [ProviderTag.musicbrainz])))) :=
  C4_chain_priority_order ⟨some "t", none, some "http://d", none, none, some "http://m"⟩ "t" rfl

theorem truthy_of_existingCover (fs : String → Bool) (o : Option String)
    (h : existingCover fs o = true) : truthy o = true := by
  cases o with
  | none => simp [existingCover] at h
  | some s =>
    simp only [existingCover, Bool.and_eq_true] at h
    simp [truthy, h.1]

theorem process_record_existing (fs : String → Bool) (slug : String → String) (genre : String)
    (env : ChainEnv) (download : String → String → Except String Bool) (rec : AlbumRecord)
    (h : existingCover fs rec.coverSrc = true) :
    process_record fs slug genre env download rec = Except.ok ⟨rec, [], none⟩ := by
  have ht := truthy_of_existingCover fs rec.coverSrc h
  simp [process_record, h, ht]

theorem process_record_cachehit (fs : String → Bool) (slug : String → String) (genre : String)
    (env : ChainEnv) (download : String → String → Except String Bool) (rec : AlbumRecord)
    (h1 : existingCover fs rec.coverSrc = false)
    (h2 : fs (output_path_of slug genre rec) = true) :
    process_record fs slug genre env download rec =
      Except.ok ⟨setCover rec (some ("/" ++ output_path_of slug genre rec)), [], none⟩ := by
  cases ht : truthy rec.coverSrc <;> simp [process_record, h1, h2, ht, setCover]

theorem process_record_exhausted (fs : String → Bool) (slug : String → String) (genre : String)
    (env : ChainEnv) (download : String → String → Except String Bool) (rec : AlbumRecord)
    (h1 : existingCover fs rec.coverSrc = false)
    (h2 : fs (output_path_of slug genre rec) = false)
    (hc : (chain env).1 = none) :
    process_record fs slug genre env download rec =
      Except.ok ⟨setCover (if truthy rec.coverSrc then rec else setCover rec (some ""))
        (some "/default-cover.jpg"), (chain env).2, none⟩ := by
  rcases hce : chain env with ⟨c, q⟩
  rw [hce] at hc
  simp only at hc
  subst hc
  simp [process_record, h1, h2, hce]

theorem process_record_found (fs : String → Bool) (slug : String → String) (genre : String)
    (env : ChainEnv) (download : String → String → Except String Bool) (rec : AlbumRecord)
    (url : String)
    (h1 : existingCover fs rec.coverSrc = false)
    (h2 : fs (output_path_of slug genre rec) = false)
    (hc : (chain env).1 = some url) :
    process_record fs slug genre env download rec =
      (match download url (output_path_of slug genre rec) with
       | Except.error e => Except.error e
       | Except.ok true =>
         Except.ok ⟨setCover rec (some ("/" ++ output_path_of slug genre rec)),
           (chain env).2, some (url, output_path_of slug genre rec)⟩
       | Except.ok false =>
         Except.ok ⟨(if truthy rec.coverSrc then rec else setCover rec (some "")),
           (chain env).2, some (url, output_path_of slug genre rec)⟩) := by
  rcases hce : chain env with ⟨c, q⟩
  rw [hce] at hc
  simp only at hc
  subst hc
  cases hd : download url (output_path_of slug genre rec) with
  | error e => simp [process_record, h1, h2, hce, hd]
  | ok b => cases b <;> cases ht : truthy rec.coverSrc <;>
      simp [process_record, h1, h2, hce, hd, ht, setCover]

/-- C5 (amended): a record whose coverSrc is non-empty and references an
existing file is skipped unchanged with zero provider queries; otherwise a
record whose deterministic output file exists gets coverSrc set to that path
prefixed with a slash, with zero provider queries; and whenever the output
file exists, a second run over the same filesystem again performs zero
provider queries and leaves coverSrc as the first run set it.  (The claim's
blanket second-run conclusion fails for records the chain exhausted: see the
counterexample.) -/
theorem C5_cache_short_circuit (fs : String → Bool) (slug : String → String) (genre : String)
    (env : ChainEnv) (download : String → String → Except String Bool) (rec : AlbumRecord) :
    (existingCover fs rec.coverSrc = true →
      process_record fs slug genre env download rec = Except.ok ⟨rec, [], none⟩) ∧
    (existingCover fs rec.coverSrc = false →
      fs (output_path_of slug genre rec) = true →
      process_record fs slug genre env download rec =
        Except.ok ⟨setCover rec (some ("/" ++ output_path_of slug genre rec)), [], none⟩) ∧
    (fs (output_path_of slug genre rec) = true →
      ∀ r₁ r₂ : StepResult,
        process_record fs slug genre env download rec = Except.ok r₁ →
        process_record fs slug genre env download r₁.record = Except.ok r₂ →
        r₁.queried = [] ∧ r₂.queried = [] ∧ r₂.record.coverSrc = r₁.record.coverSrc) := by
  refine ⟨process_record_existing fs slug genre env download rec,
    process_record_cachehit fs slug genre env download rec, ?_⟩
  intro hop r₁ r₂ h1 h2
  by_cases hec : existingCover fs rec.coverSrc = true
  · rw [process_record_existing fs slug genre env download rec hec] at h1
    injection h1 with h1
    subst h1
    rw [process_record_existing fs slug genre env download rec hec] at h2
    injection h2 with h2
    subst h2
    exact ⟨rfl, rfl, rfl⟩
  · have hecf : existingCover fs rec.coverSrc = false := Bool.not_eq_true _ ▸ hec
    rw [process_record_cachehit fs slug genre env download rec hecf hop] at h1
    injection h1 with h1
    subst h1
    have hrec : (setCover rec (some ("/" ++ output_path_of slug genre rec))).coverSrc =
        some ("/" ++ output_path_of slug genre rec) := rfl
    have hpath : output_path_of slug genre
        (setCover rec (some ("/" ++ output_path_of slug genre rec))) =
        output_path_of slug genre rec := rfl
    by_cases hec2 : existingCover fs
        (setCover rec (some ("/" ++ output_path_of slug genre rec))).coverSrc = true
    · rw [process_record_existing fs slug genre env download _ hec2] at h2
      injection h2 with h2
      subst h2
      exact ⟨rfl, rfl, rfl⟩
    · have hec2f := Bool.not_eq_true _ ▸ hec2
      rw [process_record_cachehit fs slug genre env download _ hec2f
        (hpath ▸ hop)] at h2
      injection h2 with h2
      subst h2
      exact ⟨rfl, rfl, rfl⟩

/-- C5 (witness): the existing-cover skip applied to a concrete record whose
coverSrc file exists. -/
theorem C5_cache_short_circuit_witness :
    process_record (fun p => p == "covers/w.jpg") (fun s => s) "rock"
      ⟨some "t", some "u", none, none, none, none⟩ (fun _ _ => Except.ok true)
      ⟨"Pink Floyd", "The Wall", some "1979", some "covers/w.jpg"⟩ =
      Except.ok ⟨⟨"Pink Floyd", "The Wall", some "1979", some "covers/w.jpg"⟩, [], none⟩ :=
  (C5_cache_short_circuit (fun p => p == "covers/w.jpg") (fun s => s) "rock"
    ⟨some "t", some "u", none, none, none, none⟩ (fun _ _ => Except.ok true)
    ⟨"Pink Floyd", "The Wall", some "1979", some "covers/w.jpg"⟩).1 (by decide)

/-- C5 (counterexample): the claim's second-run conclusion fails.  A record
the chain exhausts gets the default placeholder but no file is written, so a
second run over the identical catalog and filesystem state queries all five
providers again — the five-element queried list is not empty — contradicting
that a second run makes no additional network calls. -/
theorem C5_second_run_requeries :
    process_record (fun _ => false) (fun s => s) "rock"
      ⟨some "t", none, none, none, none, none⟩ (fun _ _ => Except.ok false)
      ⟨"Pink Floyd", "The Wall", some "1979", none⟩ =
      Except.ok ⟨⟨"Pink Floyd", "The Wall", some "1979", some "/default-cover.jpg"⟩,
        [ProviderTag.spotify, ProviderTag.deezer, ProviderTag.lastfm, ProviderTag.discogs,
          ProviderTag.musicbrainz], none⟩ ∧
    process_record (fun _ => false) (fun s => s) "rock"
      ⟨some "t", none, none, none, none, none⟩ (fun _ _ => Except.ok false)
      ⟨"Pink Floyd", "The Wall", some "1979", some "/default-cover.jpg"⟩ =
      Except.ok ⟨⟨"Pink Floyd", "The Wall", some "1979", some "/default-cover.jpg"⟩,
        [ProviderTag.spotify, ProviderTag.deezer, ProviderTag.lastfm, ProviderTag.discogs,
          ProviderTag.musicbrainz], none⟩ ∧
    ([ProviderTag.spotify, ProviderTag.deezer, ProviderTag.lastfm, ProviderTag.discogs,
      ProviderTag.musicbrainz] : List ProviderTag) ≠ [] :=
  ⟨rfl, rfl, by decide⟩

/-- C6 (confirmed): when no provider produces a result — the chain is
exhausted — the record's coverSrc is set to the default placeholder path,
with no download call, for any record not served by the two cache checks. -/
theorem C6_total_exhaustion_default (fs : String → Bool) (slug : String → String)
    (genre : String) (download : String → String → Except String Bool) (rec : AlbumRecord)
    (tok : Option String)
    (h1 : existingCover fs rec.coverSrc = false)
    (h2 : fs (output_path_of slug genre rec) = false) :
    process_record fs slug genre ⟨tok, none, none, none, none, none⟩ download rec =
      Except.ok ⟨setCover (if truthy rec.coverSrc then rec else setCover rec (some ""))
        (some "/default-cover.jpg"), (chain ⟨tok, none, none, none, none, none⟩).2, none⟩ :=
  process_record_exhausted fs slug genre ⟨tok, none, none, none, none, none⟩ download rec h1 h2
    (by cases tok <;> rfl)

/-- C6 (witness): the spec's scenario — Pink Floyd, The Wall, 1979, every
provider without a result — yields coverSrc /default-cover.jpg. -/
theorem C6_total_exhaustion_default_witness :
    process_record (fun _ => false) (fun s => s) "rock"
      ⟨some "t", none, none, none, none, none⟩ (fun _ _ => Except.ok true)
      ⟨"Pink Floyd", "The Wall", some "1979", none⟩ =
      Except.ok ⟨setCover
        (if truthy (⟨"Pink Floyd", "The Wall", some "1979", none⟩ : AlbumRecord).coverSrc
          then (⟨"Pink Floyd", "The Wall", some "1979", none⟩ : AlbumRecord)
          else setCover ⟨"Pink Floyd", "The Wall", some "1979", none⟩ (some ""))
        (some "/default-cover.jpg"),
        (chain ⟨some "t", none, none, none, none, none⟩).2, none⟩ :=
  C6_total_exhaustion_default (fun _ => false) (fun s => s) "rock"
    (fun _ _ => Except.ok true) ⟨"Pink Floyd", "The Wall", some "1979", none⟩ (some "t")
    (by decide) (by decide)

/-- C7 (confirmed): with a requested year, verification accepts only when
the leading dash-separated component of the candidate's date equals the
requested year — a differing year is rejected whatever the name
similarities, even at score 100 — and with no requested year the check is
skipped: the verdict does not depend on the candidate's date. -/
theorem C7_year_check :
    (∀ (tsr : String → String → Nat) (artist album y cA cN : String) (cT : Option String)
        (cD : String), extract_year cD ≠ y →
      verify tsr artist album (some y) cA cN cT cD = false) ∧
    (∀ (tsr : String → String → Nat) (artist album y cA cN : String) (cT : Option String)
        (cD t : String),
      fuzzy_match tsr artist cA 90 = true → fuzzy_match tsr album cN 85 = true →
      cT = some t → ALBUM_TYPES.contains t = true → extract_year cD = y →
      verify tsr artist album (some y) cA cN cT cD = true) ∧
    (∀ (tsr : String → String → Nat) (artist album cA cN : String) (cT : Option String)
        (cD cD' : String),
      verify tsr artist album none cA cN cT cD = verify tsr artist album none cA cN cT cD') := by
  refine ⟨?_, ?_, ?_⟩
  · intro tsr artist album y cA cN cT cD h
    have hb : (extract_year cD == y) = false := beq_eq_false_iff_ne.mpr h
    simp [verify, hb]
  · intro tsr artist album y cA cN cT cD t h90 h85 hct hmem hy
    subst hct
    simp [verify, h90, h85, hy]
    simpa using hmem
  · intro tsr artist album cA cN cT cD cD'
    simp [verify]

/-- C7 (witness): a candidate with perfect similarity and accepted type but
year 2001 against requested 1979 is rejected; with matching year and perfect
scores it is accepted. -/
theorem C7_year_check_witness :
    verify (fun _ _ => 100) "Pink Floyd" "The Wall" (some "1979")
      "Pink Floyd" "The Wall" (some "album") "2001-05-05" = false ∧
    verify (fun _ _ => 100) "Pink Floyd" "The Wall" (some "1979")
      "Pink Floyd" "The Wall" (some "album") "1979-11-30" = true :=
  ⟨C7_year_check.1 (fun _ _ => 100) "Pink Floyd" "The Wall" "1979"
      "Pink Floyd" "The Wall" (some "album") "2001-05-05" (by decide),
    C7_year_check.2.1 (fun _ _ => 100) "Pink Floyd" "The Wall" "1979"
      "Pink Floyd" "The Wall" (some "album") "1979-11-30" "album"
      (by decide) (by decide) rfl (by decide) (by decide)⟩

/-- C8 (counterexample): a raising sub-step does not make materialize return
failure — the exception propagates.  With a 200 response and a raising
imaging pipeline, download_and_resize_image is an error, and processing a
record whose chain found a URL propagates that error instead of continuing
to the next record. -/
theorem C8_decode_error_aborts :
    download_and_resize_image (Except.ok 200) (Except.error "decode failed")
      = Except.error "decode failed" ∧
    process_record (fun _ => false) (fun s => s) "rock"
      ⟨some "t", some "http://u", none, none, none, none⟩
      (fun _ _ => Except.error "decode failed")
      ⟨"Pink Floyd", "The Wall", none, none⟩ = Except.error "decode failed" :=
  ⟨rfl, rfl⟩

/-- C8 (amended): only a transport error or a non-200 status make
materialize return failure; in that case the record keeps its previous
coverSrc value (the empty string when it was missing) and processing of the
record completes normally.  An exception raised by the imaging sub-steps is
not caught (see the counterexample). -/
theorem C8_download_failure_nonfatal :
    (∀ (m : String) (imaging : Except String Unit),
      download_and_resize_image (Except.error m) imaging = Except.ok false) ∧
    (∀ (code : Nat) (imaging : Except String Unit), code ≠ 200 →
      download_and_resize_image (Except.ok code) imaging = Except.ok false) ∧
    (∀ (fs : String → Bool) (slug : String → String) (genre : String) (env : ChainEnv)
        (download : String → String → Except String Bool) (rec : AlbumRecord) (url : String),
      existingCover fs rec.coverSrc = false →
      fs (output_path_of slug genre rec) = false →
      (chain env).1 = some url →
      download url (output_path_of slug genre rec) = Except.ok false →
      process_record fs slug genre env download rec =
        Except.ok ⟨(if truthy rec.coverSrc then rec else setCover rec (some "")),
          (chain env).2, some (url, output_path_of slug genre rec)⟩) := by
  refine ⟨?_, ?_, ?_⟩
  · intro m imaging
    rfl
  · intro code imaging h
    have hb : (code == 200) = false := by
      simp only [beq_eq_false_iff_ne, ne_eq]
      exact h
    simp [download_and_resize_image, hb]
  · intro fs slug genre env download rec url h1 h2 hc hd
    rw [process_record_found fs slug genre env download rec url h1 h2 hc, hd]

/-- C8 (witness): the non-200 case at status 404, and the record-level
continuation at a concrete world whose download returns failure. -/
theorem C8_download_failure_nonfatal_witness :
    download_and_resize_image (Except.ok 404) (Except.ok ()) = Except.ok false ∧
    process_record (fun _ => false) (fun s => s) "rock"
      ⟨some "t", some "http://u", none, none, none, none⟩ (fun _ _ => Except.ok false)
      ⟨"Pink Floyd", "The Wall", none, none⟩ =
      Except.ok ⟨(if truthy (⟨"Pink Floyd", "The Wall", none, none⟩ : AlbumRecord).coverSrc
          then (⟨"Pink Floyd", "The Wall", none, none⟩ : AlbumRecord)
          else setCover ⟨"Pink Floyd", "The Wall", none, none⟩ (some "")),
        (chain ⟨some "t", some "http://u", none, none, none, none⟩).2,
        some ("http://u", output_path_of (fun s => s) "rock"
          ⟨"Pink Floyd", "The Wall", none, none⟩)⟩ :=
  ⟨C8_download_failure_nonfatal.2.1 404 (Except.ok ()) (by decide),
    C8_download_failure_nonfatal.2.2 (fun _ => false) (fun s => s) "rock"
      ⟨some "t", some "http://u", none, none, none, none⟩ (fun _ _ => Except.ok false)
      ⟨"Pink Floyd", "The Wall", none, none⟩ "http://u" (by decide) (by decide) rfl rfl⟩

/-- C9 (confirmed): a missing credential disables its provider without
failing the run — a rejected token exchange yields no Spotify token; without
a token Spotify is never queried by the chain; a Last.fm reply carrying no
album payload (as for an unkeyed request) and a raising Discogs search (as
with a missing user token) both yield none; and a record processed with no
token and no provider results completes normally with the remaining four
providers consulted in order. -/
theorem C9_missing_credential_graceful :
    (∀ (code : Nat) (body : Option String), code ≠ 200 →
      authenticate_spotify (code, body) = none) ∧
    (∀ env : ChainEnv, env.spotify_token = none → ProviderTag.spotify ∉ (chain env).2) ∧
    (∀ (respond : Option String → String → String → Option (Option LastfmAlbum))
        (artist album : String), respond none artist album = some none →
      fetch_cover_lastfm none respond artist album = none) ∧
    (∀ (search : Option String → String → String → Except String (List DiscogsRelease))
        (artist album e : String), search none album artist = Except.error e →
      fetch_cover_discogs none search artist album = none) ∧
    (∀ (fs : String → Bool) (slug : String → String) (genre : String)
        (download : String → String → Except String Bool) (rec : AlbumRecord),
      existingCover fs rec.coverSrc = false →
      fs (output_path_of slug genre rec) = false →
      process_record fs slug genre ⟨none, none, none, none, none, none⟩ download rec =
        Except.ok ⟨setCover (if truthy rec.coverSrc then rec else setCover rec (some ""))
          (some "/default-cover.jpg"),
          [ProviderTag.deezer, ProviderTag.lastfm, ProviderTag.discogs,
            ProviderTag.musicbrainz], none⟩) := by
  refine ⟨?_, ?_, ?_, ?_, ?_⟩
  · intro code body h
    have hb : (code == 200) = false := by
      simp only [beq_eq_false_iff_ne, ne_eq]
      exact h
    simp [authenticate_spotify, hb]
  · intro env h
    obtain ⟨tok, pA, pB, pC, pD, pE⟩ := env
    simp only at h
    subst h
    cases pB <;> cases pC <;> cases pD <;> simp [chain]
  · intro respond artist album h
    unfold fetch_cover_lastfm
    rw [h]
  · intro search artist album e h
    unfold fetch_cover_discogs
    rw [h]
  · intro fs slug genre download rec h1 h2
    exact process_record_exhausted fs slug genre ⟨none, none, none, none, none, none⟩
      download rec h1 h2 rfl

/-- C9 (witness): the failed token exchange at status 401 and the Discogs
part at a concrete raising search. -/
theorem C9_missing_credential_graceful_witness :
    authenticate_spotify (401, some "tok") = none ∧
    fetch_cover_discogs none (fun _ _ _ => Except.error "need token")
      "Pink Floyd" "The Wall" = none :=
  ⟨C9_missing_credential_graceful.1 401 (some "tok") (by decide),
    C9_missing_credential_graceful.2.2.2.1 (fun _ _ _ => Except.error "need token")
      "Pink Floyd" "The Wall" "need token" rfl⟩

theorem slash_prepend_ne (s : String) : "/" ++ s ≠ s := by
  intro h
  have hl := congrArg String.length h
  rw [String.length_append, show ("/" : String).length = 1 from rfl] at hl
  omega

/-- C10 (confirmed): both writes of a fresh coverSrc — the cache hit and the
successful download — store the output path prefixed with a slash, while the
path used on disk (the cache probe, and the download target recorded in the
download call) is the same path without the slash; the stored string is
never the literal path that was written. -/
theorem C10_coverSrc_slash_prefixed :
    (∀ (fs : String → Bool) (slug : String → String) (genre : String) (env : ChainEnv)
        (download : String → String → Except String Bool) (rec : AlbumRecord),
      existingCover fs rec.coverSrc = false →
      fs (output_path_of slug genre rec) = true →
      process_record fs slug genre env download rec =
        Except.ok ⟨setCover rec (some ("/" ++ output_path_of slug genre rec)), [], none⟩ ∧
      "/" ++ output_path_of slug genre rec ≠ output_path_of slug genre rec) ∧
    (∀ (fs : String → Bool) (slug : String → String) (genre : String) (env : ChainEnv)
        (download : String → String → Except String Bool) (rec : AlbumRecord) (url : String),
      existingCover fs rec.coverSrc = false →
      fs (output_path_of slug genre rec) = false →
      (chain env).1 = some url →
      download url (output_path_of slug genre rec) = Except.ok true →
      process_record fs slug genre env download rec =
        Except.ok ⟨setCover rec (some ("/" ++ output_path_of slug genre rec)),
          (chain env).2, some (url, output_path_of slug genre rec)⟩ ∧
      "/" ++ output_path_of slug genre rec ≠ output_path_of slug genre rec) := by
  constructor
  · intro fs slug genre env download rec h1 h2
    exact ⟨process_record_cachehit fs slug genre env download rec h1 h2,
      slash_prepend_ne (output_path_of slug genre rec)⟩
  · intro fs slug genre env download rec url h1 h2 hc hd
    refine ⟨?_, slash_prepend_ne (output_path_of slug genre rec)⟩
    rw [process_record_found fs slug genre env download rec url h1 h2 hc, hd]

/-- C10 (witness): the cache-hit write at a concrete record: the stored
coverSrc is /bandcover/rock/x.jpg while the probed file is
bandcover/rock/x.jpg. -/
theorem C10_coverSrc_slash_prefixed_witness :
    process_record (fun p => p == "bandcover/rock/x.jpg") (fun _ => "x") "rock"
      ⟨some "t", none, none, none, none, none⟩ (fun _ _ => Except.ok true)
      ⟨"Pink Floyd", "The Wall", none, none⟩ =
      Except.ok ⟨setCover ⟨"Pink Floyd", "The Wall", none, none⟩
        (some ("/" ++ output_path_of (fun _ => "x") "rock"
          ⟨"Pink Floyd", "The Wall", none, none⟩)), [], none⟩ ∧
    "/" ++ output_path_of (fun _ => "x") "rock" ⟨"Pink Floyd", "The Wall", none, none⟩ ≠
      output_path_of (fun _ => "x") "rock" ⟨"Pink Floyd", "The Wall", none, none⟩ :=
  (C10_coverSrc_slash_prefixed.1 (fun p => p == "bandcover/rock/x.jpg") (fun _ => "x") "rock"
    ⟨some "t", none, none, none, none, none⟩ (fun _ _ => Except.ok true)
    ⟨"Pink Floyd", "The Wall", none, none⟩ (by decide) (by decide))
